import Mathlib

/-!
Verification of the payment-session store, the cart store, the reconnect
policy of the status channel, the student-id validator and the rehydration
logic of the flick-place kiosk client, embedded shallowly from
src/stores/payment.ts, src/stores/cart.ts and src/app/payment.tsx.
-/

namespace Flick

/- ## Payment session store (src/stores/payment.ts) -/

inductive PaymentRequestStatus where
  | PENDING | COMPLETED | FAILED | EXPIRED
deriving DecidableEq, Repr

inductive PaymentRequestMethod where
  | QR_CODE | STUDENT_ID
deriving DecidableEq, Repr

open PaymentRequestStatus PaymentRequestMethod

/-- The persisted slice of the zustand payment store. The `expiresAt`
ISO-8601 string is represented by its epoch-millisecond value; `none`
models both `null` and the falsy empty string. -/
structure PaymentState where
  orderId : Option Int
  requestId : Option Int
  requestCode : Option String
  requestMethod : Option PaymentRequestMethod
  expiresAt : Option Int
  timer : Int
  isActive : Bool
  status : Option PaymentRequestStatus
deriving DecidableEq, Repr

def DEFAULT_TIMER : Int := 900

/-- The initial store state (payment.ts lines 38-45). -/
def initialPaymentState : PaymentState :=
  { orderId := none, requestId := none, requestCode := none,
    requestMethod := none, expiresAt := none, timer := DEFAULT_TIMER,
    isActive := false, status := none }

/-- createPayment (payment.ts lines 47-58). -/
def createPayment (orderId : Int) (_s : PaymentState) : PaymentState :=
  { orderId := some orderId, timer := DEFAULT_TIMER, isActive := true,
    status := some PENDING, requestId := none, requestCode := none,
    requestMethod := none, expiresAt := none }

/-- setPaymentRequest (payment.ts lines 60-92); `now` is the value of
`new Date().getTime()` at the moment of the call, in milliseconds. -/
def setPaymentRequest (requestId : Int) (requestCode : String)
    (status : PaymentRequestStatus) (requestMethod : PaymentRequestMethod)
    (expiresAt : Option Int) (now : Int) (s : PaymentState) : PaymentState :=
  let timer := s.timer
  let updatedTimer :=
    match expiresAt with
    | some expiryTime =>
        let timeLeftInSeconds := max 0 ((expiryTime - now).fdiv 1000)
        if timeLeftInSeconds < timer then timeLeftInSeconds else timer
    | none => timer
  { s with
      requestId := some requestId,
      requestCode := some requestCode,
      status := some status,
      requestMethod := some requestMethod,
      expiresAt := expiresAt,
      isActive := decide (status = PENDING),
      timer := updatedTimer }

/-- setStatus (payment.ts lines 94-99). -/
def setStatus (status : PaymentRequestStatus) (s : PaymentState) : PaymentState :=
  { s with status := some status, isActive := decide (status = PENDING) }

/-- decrementTimer (payment.ts lines 101-109). -/
def decrementTimer (s : PaymentState) : PaymentState :=
  if s.timer ≤ 0 then
    { s with isActive := false, status := some EXPIRED }
  else if s.status = some PENDING then
    { s with timer := s.timer - 1 }
  else
    s

/-- resetPayment (payment.ts lines 111-122). -/
def resetPayment (_s : PaymentState) : PaymentState :=
  { orderId := none, requestId := none, requestCode := none,
    requestMethod := none, expiresAt := none, timer := DEFAULT_TIMER,
    isActive := false, status := none }

/-- resetPaymentRequest (payment.ts lines 124-136). -/
def resetPaymentRequest (s : PaymentState) : PaymentState :=
  { orderId := s.orderId, requestId := none, requestCode := none,
    requestMethod := none, expiresAt := none, timer := s.timer,
    isActive := true, status := some PENDING }

/-- cancelPayment (payment.ts lines 138-143). -/
def cancelPayment (s : PaymentState) : PaymentState :=
  { s with isActive := false, status := some EXPIRED }

/-- States of the store reachable from the initial state by the public
operations. -/
inductive Reachable : PaymentState → Prop where
  | init : Reachable initialPaymentState
  | createPayment (oid : Int) {s} : Reachable s → Reachable (createPayment oid s)
  | setPaymentRequest (rid : Int) (rc : String) (st : PaymentRequestStatus)
      (m : PaymentRequestMethod) (e : Option Int) (now : Int) {s} :
      Reachable s → Reachable (setPaymentRequest rid rc st m e now s)
  | setStatus (st : PaymentRequestStatus) {s} :
      Reachable s → Reachable (setStatus st s)
  | decrementTimer {s} : Reachable s → Reachable (decrementTimer s)
  | resetPayment {s} : Reachable s → Reachable (resetPayment s)
  | resetPaymentRequest {s} : Reachable s → Reachable (resetPaymentRequest s)
  | cancelPayment {s} : Reachable s → Reachable (cancelPayment s)

/-- A terminal status in the sense of the spec. -/
def isTerminal (st : Option PaymentRequestStatus) : Bool :=
  st = some COMPLETED ∨ st = some FAILED ∨ st = some EXPIRED

/-- The store invariant relating the active flag to the status field. -/
lemma reachable_active_iff_pending {s : PaymentState} (h : Reachable s) :
    s.isActive = true ↔ s.status = some PENDING := by
  induction h with
  | init => simp [initialPaymentState]
  | createPayment oid _ _ => simp [createPayment]
  | setPaymentRequest rid rc st m e now _ _ =>
      simp [setPaymentRequest, decide_eq_true_iff]
  | setStatus st _ _ => simp [setStatus, decide_eq_true_iff]
  | decrementTimer _ ih =>
      unfold decrementTimer
      split
      · simp
      · split
        · simpa using ih
        · exact ih
  | resetPayment _ _ => simp [resetPayment]
  | resetPaymentRequest _ _ => simp [resetPaymentRequest]
  | cancelPayment _ _ => simp [cancelPayment]

/-- The countdown is never negative in any reachable store state. -/
lemma reachable_timer_nonneg {s : PaymentState} (h : Reachable s) :
    0 ≤ s.timer := by
  induction h with
  | init => norm_num [initialPaymentState, DEFAULT_TIMER]
  | createPayment oid _ _ => norm_num [createPayment, DEFAULT_TIMER]
  | setPaymentRequest rid rc st m e now _ ih =>
      simp only [setPaymentRequest]
      cases e with
      | none => simpa using ih
      | some et =>
          simp only []
          split
          · exact le_max_left 0 _
          · simpa using ih
  | setStatus st _ ih => simpa [setStatus] using ih
  | decrementTimer _ ih =>
      unfold decrementTimer
      split
      · simpa using ih
      · split
        · simp only []
          omega
        · exact ih
  | resetPayment _ _ => norm_num [resetPayment, DEFAULT_TIMER]
  | resetPaymentRequest _ ih => simpa [resetPaymentRequest] using ih
  | cancelPayment _ ih => simpa [cancelPayment] using ih

/-- Claim C2: in every state reachable from the initial store state by
any sequence of the public operations, `isActive` is true if and only if
`status` equals PENDING. -/
theorem active_iff_status_pending {s : PaymentState} (h : Reachable s) :
    s.isActive = true ↔ s.status = some PENDING :=
  reachable_active_iff_pending h

/-- Witness for C2 at a concrete reachable state. -/
theorem active_iff_status_pending_witness :
    (createPayment 7 initialPaymentState).isActive = true ↔
      (createPayment 7 initialPaymentState).status = some PENDING :=
  active_iff_status_pending (Reachable.createPayment 7 Reachable.init)

/-- Claim C9: resetPaymentRequest clears the request fields, re-arms the
session as PENDING and active, and preserves orderId and the timer. -/
theorem resetPaymentRequest_frame (s : PaymentState) :
    (resetPaymentRequest s).requestId = none ∧
    (resetPaymentRequest s).requestCode = none ∧
    (resetPaymentRequest s).requestMethod = none ∧
    (resetPaymentRequest s).expiresAt = none ∧
    (resetPaymentRequest s).status = some PENDING ∧
    (resetPaymentRequest s).isActive = true ∧
    (resetPaymentRequest s).orderId = s.orderId ∧
    (resetPaymentRequest s).timer = s.timer := by
  simp [resetPaymentRequest]

/-- A concrete reachable state whose status is terminal: createPayment
followed by a COMPLETED push. -/
def completedState : PaymentState :=
  setStatus COMPLETED (createPayment 1 initialPaymentState)

/-- Counterexample to claim C1 as stated: from the reachable state with
terminal status COMPLETED, a subsequent cancelPayment call changes
`status` (to EXPIRED), so terminal transitions are not first-writer-wins. -/
theorem terminal_not_frozen_counterexample :
    Reachable completedState ∧
    isTerminal completedState.status = true ∧
    (cancelPayment completedState).status ≠ completedState.status := by
  refine ⟨Reachable.setStatus COMPLETED (Reachable.createPayment 1 Reachable.init), ?_, ?_⟩ <;>
    simp [completedState, isTerminal, setStatus, createPayment, cancelPayment,
      initialPaymentState]

/-- Claim C1 (amended): once a reachable session is terminal, subsequent
setStatus / decrementTimer / cancelPayment calls leave `isActive`
unchanged at false, and decrementTimer with a positive timer leaves the
whole state unchanged; but setStatus overwrites `status` with its
argument, cancelPayment sets it to EXPIRED, and decrementTimer with
timer at or below zero sets it to EXPIRED. -/
theorem terminal_behaviour {s : PaymentState} (h : Reachable s)
    (hterm : isTerminal s.status = true) :
    s.isActive = false ∧
    (∀ t : PaymentRequestStatus, isTerminal (some t) = true →
      (setStatus t s).isActive = false ∧ (setStatus t s).status = some t) ∧
    ((cancelPayment s).isActive = false ∧
      (cancelPayment s).status = some EXPIRED) ∧
    ((decrementTimer s).isActive = false ∧
      (0 < s.timer → decrementTimer s = s) ∧
      (s.timer ≤ 0 → (decrementTimer s).status = some EXPIRED)) := by
  have hpend : s.status ≠ some PENDING := by
    simp only [isTerminal, decide_eq_true_iff] at hterm
    rcases hterm with h1 | h1 | h1 <;> simp [h1]
  have hact : s.isActive = false := by
    cases hb : s.isActive with
    | false => rfl
    | true => exact absurd ((reachable_active_iff_pending h).mp hb) hpend
  refine ⟨hact, ?_, ⟨?_, ?_⟩, ⟨?_, ?_, ?_⟩⟩
  · intro t ht
    simp only [isTerminal, decide_eq_true_iff] at ht
    rcases ht with h1 | h1 | h1 <;> simp_all [setStatus]
  · simp [cancelPayment]
  · simp [cancelPayment]
  · unfold decrementTimer
    rcases le_or_lt s.timer 0 with hle | hlt
    · rw [if_pos hle]
    · rw [if_neg (by omega), if_neg hpend]
      exact hact
  · intro hpos
    unfold decrementTimer
    rw [if_neg (by omega), if_neg hpend]
  · intro hle
    unfold decrementTimer
    rw [if_pos hle]

/-- Witness for C1 (amended) at the concrete reachable COMPLETED state. -/
theorem terminal_behaviour_witness :
    (cancelPayment completedState).isActive = false ∧
    (0 < completedState.timer → decrementTimer completedState = completedState) := by
  have h := terminal_behaviour
    (Reachable.setStatus COMPLETED (Reachable.createPayment 1 Reachable.init))
    (by simp [completedState, setStatus, isTerminal])
  exact ⟨h.2.2.1.1, h.2.2.2.2.1⟩

lemma decrementTimer_pending_pos {s : PaymentState}
    (hst : s.status = some PENDING) (hpos : 0 < s.timer) :
    decrementTimer s = { s with timer := s.timer - 1 } := by
  unfold decrementTimer
  rw [if_neg (by omega), if_pos hst]

lemma decrementTimer_iterate_pending (s : PaymentState)
    (hst : s.status = some PENDING) (n : Nat) (hn : (n : Int) ≤ s.timer) :
    decrementTimer^[n] s = { s with timer := s.timer - n } := by
  induction n generalizing s with
  | zero => simp
  | succ k ih =>
      rw [Function.iterate_succ_apply,
        decrementTimer_pending_pos hst (by push_cast at hn; omega)]
      rw [ih { s with timer := s.timer - 1 } (by simpa using hst)
        (by push_cast at hn ⊢; omega)]
      congr 1
      push_cast
      ring

lemma decrementTimer_iterate_expired (s : PaymentState)
    (hst : s.status = some PENDING) (ht : 0 ≤ s.timer)
    (n : Nat) (hn : s.timer < (n : Int)) :
    decrementTimer^[n] s =
      { s with timer := 0, isActive := false, status := some EXPIRED } := by
  set t : Nat := s.timer.toNat with htdef
  have htt : (t : Int) = s.timer := Int.toNat_of_nonneg ht
  have hsplit : n = (n - (t + 1)) + (t + 1) := by omega
  rw [hsplit, Function.iterate_add_apply, Function.iterate_succ_apply',
    decrementTimer_iterate_pending s hst t (by omega)]
  have hstep :
      decrementTimer { s with timer := s.timer - (t : Int) } =
        { s with timer := 0, isActive := false, status := some EXPIRED } := by
    have h0 : s.timer - (t : Int) = 0 := by omega
    rw [h0]
    unfold decrementTimer
    rw [if_pos (by simp)]
  rw [hstep]
  exact Function.iterate_fixed (by unfold decrementTimer; rw [if_pos le_rfl]) _

/-- A session one second from expiry: PENDING, active, timer 1. -/
def oneSecondState : PaymentState :=
  { orderId := some 1, requestId := none, requestCode := none,
    requestMethod := none, expiresAt := none, timer := 1,
    isActive := true, status := some PENDING }

/-- Counterexample to claim C3 as stated: starting from timer 1 (PENDING,
active), a single decrementTimer call brings the timer to 0, yet the
session is still PENDING and active, not EXPIRED and inactive; expiry
only happens on the following call. -/
theorem timer_zero_still_pending_counterexample :
    (decrementTimer oneSecondState).timer = 0 ∧
    (decrementTimer oneSecondState).status = some PENDING ∧
    (decrementTimer oneSecondState).isActive = true ∧
    (decrementTimer oneSecondState).status ≠ some EXPIRED := by
  decide

/-- Claim C3 (amended): from a PENDING active session with timer s ≥ 0,
N calls of decrementTimer leave the timer at max(0, s−N), the timer is
never negative, the session stays PENDING and active while N ≤ s, and
from the first call after the timer has hit 0 (N ≥ s+1) the session has
status EXPIRED and isActive false. -/
theorem decrementTimer_ticks (s : PaymentState) (n : Nat)
    (hst : s.status = some PENDING) (hact : s.isActive = true)
    (ht : 0 ≤ s.timer) :
    (decrementTimer^[n] s).timer = max 0 (s.timer - n) ∧
    0 ≤ (decrementTimer^[n] s).timer ∧
    ((n : Int) ≤ s.timer →
      (decrementTimer^[n] s).status = some PENDING ∧
      (decrementTimer^[n] s).isActive = true) ∧
    (s.timer < (n : Int) →
      (decrementTimer^[n] s).status = some EXPIRED ∧
      (decrementTimer^[n] s).isActive = false) := by
  rcases le_or_lt (n : Int) s.timer with hn | hn
  · rw [decrementTimer_iterate_pending s hst n hn]
    refine ⟨by simp; omega, by simp; omega,
      fun _ => ⟨by simpa using hst, by simpa using hact⟩,
      fun hc => absurd hc (by omega)⟩
  · rw [decrementTimer_iterate_expired s hst ht n hn]
    exact ⟨by simp; omega, by simp, fun hc => absurd hc (by omega),
      fun _ => ⟨by simp, by simp⟩⟩

/-- Witness for C3 (amended) at the concrete one-second session. -/
theorem decrementTimer_ticks_witness :
    (decrementTimer^[2] oneSecondState).timer =
      max 0 (oneSecondState.timer - 2) ∧
    (decrementTimer^[2] oneSecondState).status = some EXPIRED := by
  have h := decrementTimer_ticks oneSecondState 2 rfl rfl (by decide)
  exact ⟨h.1, (h.2.2.2 (by decide)).1⟩

/-- Claim C4: setPaymentRequest reconciles the countdown with the server
expiry, resulting in min(current timer, floor((expiresAt − now)/1000))
floored at 0, and sets isActive exactly when the new status is PENDING. -/
theorem setPaymentRequest_timer {s : PaymentState} (h : Reachable s)
    (rid : Int) (rc : String) (st : PaymentRequestStatus)
    (m : PaymentRequestMethod) (e now : Int) :
    (setPaymentRequest rid rc st m (some e) now s).timer =
      max 0 (min s.timer ((e - now).fdiv 1000)) ∧
    (setPaymentRequest rid rc st m (some e) now s).isActive =
      decide (st = PENDING) := by
  have ht : 0 ≤ s.timer := reachable_timer_nonneg h
  refine ⟨?_, by simp [setPaymentRequest]⟩
  show (if max 0 ((e - now).fdiv 1000) < s.timer
      then max 0 ((e - now).fdiv 1000) else s.timer) =
    max 0 (min s.timer ((e - now).fdiv 1000))
  split <;> omega

/-- Witness for C4: with a pre-existing timer of 900 (fresh payment) and
an expiry 10 seconds in the future, the resulting timer is 10. -/
theorem setPaymentRequest_timer_witness :
    (setPaymentRequest 5 "tok" PENDING QR_CODE (some 10000) 0
        (createPayment 1 initialPaymentState)).timer = 10 := by
  have h := setPaymentRequest_timer
    (Reachable.createPayment 1 Reachable.init) 5 "tok" PENDING QR_CODE 10000 0
  rw [h.1]
  decide

/-- onRehydrateStorage (payment.ts lines 158-164): a rehydrated session
that is inactive, not PENDING, or out of time is reset via resetPayment;
otherwise it is kept. -/
def onRehydrate (s : PaymentState) : PaymentState :=
  if s.isActive = false ∨ s.status ≠ some PENDING ∨ s.timer ≤ 0 then
    resetPayment s
  else s

/-- Claim C7: on cold start, a persisted session that is inactive, not
PENDING, or whose timer is at or below 0 is reset to the empty initial
state (identifiers null, timer at the default window, inactive, status
null); otherwise the persisted session is kept unchanged. -/
theorem onRehydrate_spec (s : PaymentState) :
    ((s.isActive = false ∨ s.status ≠ some PENDING ∨ s.timer ≤ 0) →
      onRehydrate s =
        { orderId := none, requestId := none, requestCode := none,
          requestMethod := none, expiresAt := none, timer := DEFAULT_TIMER,
          isActive := false, status := none }) ∧
    ((s.isActive = true ∧ s.status = some PENDING ∧ 0 < s.timer) →
      onRehydrate s = s) := by
  constructor
  · intro h
    unfold onRehydrate
    rw [if_pos h]
    rfl
  · rintro ⟨h1, h2, h3⟩
    unfold onRehydrate
    rw [if_neg (by push_neg; exact ⟨by simp [h1], h2, by omega⟩)]

/-- Witness for C7: the inactive initial state is reset; a live PENDING
session with time left is kept. -/
theorem onRehydrate_spec_witness :
    onRehydrate initialPaymentState =
      { orderId := none, requestId := none, requestCode := none,
        requestMethod := none, expiresAt := none, timer := DEFAULT_TIMER,
        isActive := false, status := none } ∧
    onRehydrate oneSecondState = oneSecondState :=
  ⟨(onRehydrate_spec initialPaymentState).1 (Or.inl rfl),
    (onRehydrate_spec oneSecondState).2 ⟨rfl, rfl, by decide⟩⟩

/- ## Cart store (src/stores/cart.ts) -/

/-- A cart line item (cart.ts lines 5-10). -/
structure CartItem where
  id : Int
  name : String
  price : Int
  quantity : Int
deriving DecidableEq, Repr

/-- clearCart (cart.ts lines 73-75). -/
def clearCart (_items : List CartItem) : List CartItem := []

/-- Outcome of the best-effort server cancellation call of
cancelOrderMutation. -/
inductive CancelOutcome where
  | success | failure
deriving DecidableEq, Repr

/-- cancelOrderMutation (payment.tsx lines 94-122): on a failed server
call, onError surfaces an error toast (the Bool component records that a
toast was shown); onSettled runs on success and on failure alike,
calling cancelPayment, clearing the cart and navigating away. -/
def cancelOrderFlow (outcome : CancelOutcome) (p : PaymentState)
    (cart : List CartItem) : PaymentState × List CartItem × Bool :=
  (cancelPayment p, clearCart cart,
    decide (outcome = CancelOutcome.failure))

/-- Claim C8: whatever the outcome of the server cancellation call, the
local teardown happens: the session ends inactive with the terminal
status EXPIRED and the cart is cleared; a toast is shown exactly on
server failure, and it never prevents the teardown. -/
theorem cancelOrderFlow_teardown (outcome : CancelOutcome)
    (p : PaymentState) (cart : List CartItem) :
    (cancelOrderFlow outcome p cart).1.isActive = false ∧
    (cancelOrderFlow outcome p cart).1.status = some EXPIRED ∧
    (cancelOrderFlow outcome p cart).2.1 = [] ∧
    ((cancelOrderFlow outcome p cart).2.2 = true ↔
      outcome = CancelOutcome.failure) := by
  simp [cancelOrderFlow, cancelPayment, clearCart]

/-- The argument of addItem (cart.ts line 14). -/
structure Product where
  id : Int
  name : String
  price : Int
deriving DecidableEq, Repr

/-- addItem (cart.ts lines 26-55). -/
def addItem (items : List CartItem) (product : Product) : List CartItem :=
  match items.find? (fun item => item.id == product.id) with
  | some _ =>
      items.map (fun item =>
        if item.id == product.id
        then { item with quantity := item.quantity + 1 } else item)
  | none =>
      items ++ [{ id := product.id, name := product.name,
                  price := product.price, quantity := 1 }]

/-- updateQuantity (cart.ts lines 57-71). -/
def updateQuantity (items : List CartItem) (id quantity : Int) :
    List CartItem :=
  if quantity ≤ 0 then
    items.filter (fun item => !(item.id == id))
  else
    items.map (fun item =>
      if item.id == id then { item with quantity := quantity } else item)

/-- Cart states reachable from the empty cart by the store operations. -/
inductive CartReachable : List CartItem → Prop where
  | init : CartReachable []
  | addItem (p : Product) {l} : CartReachable l → CartReachable (addItem l p)
  | updateQuantity (id quantity : Int) {l} :
      CartReachable l → CartReachable (updateQuantity l id quantity)
  | clearCart {l} : CartReachable l → CartReachable (clearCart l)

lemma ids_map_of_id_preserved (f : CartItem → CartItem)
    (hf : ∀ x, (f x).id = x.id) (l : List CartItem) :
    (l.map f).map CartItem.id = l.map CartItem.id := by
  induction l with
  | nil => rfl
  | cons a l ih => simp [hf, ih]

lemma addItem_ids_nodup (l : List CartItem) (p : Product)
    (h : (l.map CartItem.id).Nodup) :
    ((addItem l p).map CartItem.id).Nodup := by
  unfold addItem
  cases hf : l.find? (fun item => item.id == p.id) with
  | some a =>
      rw [ids_map_of_id_preserved _ (fun x => by split <;> rfl)]
      exact h
  | none =>
      have hne : ∀ x ∈ l, ¬ x.id = p.id := by
        intro x hx
        have := List.find?_eq_none.mp hf x hx
        simpa using this
      have hnotmem : p.id ∉ l.map CartItem.id := by
        intro hmem
        rcases List.mem_map.mp hmem with ⟨x, hx, hxid⟩
        exact hne x hx hxid
      simp only [List.map_append, List.map_cons, List.map_nil]
      exact List.Nodup.append h (by simp)
        (fun a ha hb => by simp at hb; subst hb; exact hnotmem ha)

lemma updateQuantity_ids_nodup (l : List CartItem) (id quantity : Int)
    (h : (l.map CartItem.id).Nodup) :
    ((updateQuantity l id quantity).map CartItem.id).Nodup := by
  unfold updateQuantity
  split
  · exact List.Nodup.sublist ((List.filter_sublist l).map CartItem.id) h
  · rw [ids_map_of_id_preserved _ (fun x => by split <;> rfl)]
    exact h

/-- In every reachable cart state, item ids are pairwise distinct. -/
lemma cart_ids_nodup {l : List CartItem} (h : CartReachable l) :
    (l.map CartItem.id).Nodup := by
  induction h with
  | init => simp
  | addItem p _ ih => exact addItem_ids_nodup _ p ih
  | updateQuantity id quantity _ ih => exact updateQuantity_ids_nodup _ id quantity ih
  | clearCart _ _ => simp [clearCart]

lemma map_bump_eq_self (l : List CartItem) (pid : Int)
    (h : ∀ x ∈ l, x.id ≠ pid) :
    l.map (fun item => if item.id == pid
        then { item with quantity := item.quantity + 1 } else item) = l := by
  induction l with
  | nil => rfl
  | cons a l ih =>
      simp only [List.map_cons]
      rw [if_neg (by simp [h a (by simp)]),
        ih (fun x hx => h x (by simp [hx]))]

lemma map_bump_eq_set (l : List CartItem) (pid : Int)
    (h : (l.map CartItem.id).Nodup) (i : Nat) (hi : i < l.length)
    (hid : (l.get ⟨i, hi⟩).id = pid) :
    l.map (fun item => if item.id == pid
        then { item with quantity := item.quantity + 1 } else item) =
      l.set i { l.get ⟨i, hi⟩ with
                quantity := (l.get ⟨i, hi⟩).quantity + 1 } := by
  induction l generalizing i with
  | nil => exact absurd hi (by simp)
  | cons a l ih =>
      have h' : (a.id :: List.map CartItem.id l).Nodup := by
        rw [List.map_cons] at h
        exact h
      have hnd := List.nodup_cons.mp h'
      cases i with
      | zero =>
          simp only [List.get] at hid
          simp only [List.map_cons, List.set]
          rw [if_pos (by simp [hid])]
          have htail : ∀ x ∈ l, x.id ≠ pid := by
            intro x hx hxid
            exact hnd.1 (hid ▸ hxid ▸ List.mem_map_of_mem CartItem.id hx)
          rw [map_bump_eq_self l pid htail]
          rfl
      | succ j =>
          have hj : j < l.length := by simpa using Nat.lt_of_succ_lt_succ hi
          have hmem : pid ∈ l.map CartItem.id :=
            hid ▸ List.mem_map_of_mem CartItem.id (List.get_mem l j hj)
          simp only [List.map_cons, List.set]
          rw [if_neg (by simp; intro hcontra; exact hnd.1 (hcontra ▸ hmem))]
          have := ih hnd.2 j hj hid
          rw [this]
          rfl

/-- Claim C10: on a reachable cart, addItem bumps the quantity of the
item already carrying the product id by exactly 1, in place, touching
nothing else; when no item carries the id it appends a fresh item of
quantity 1 at the end, keeping all existing items. -/
theorem addItem_spec {l : List CartItem} (h : CartReachable l)
    (p : Product) :
    ((∀ item ∈ l, item.id ≠ p.id) →
      addItem l p = l ++ [{ id := p.id, name := p.name, price := p.price,
                            quantity := 1 }]) ∧
    (∀ i : Fin l.length, (l.get i).id = p.id →
      addItem l p =
        l.set i { l.get i with quantity := (l.get i).quantity + 1 }) := by
  constructor
  · intro hnone
    unfold addItem
    rw [List.find?_eq_none.mpr (fun x hx => by simp [hnone x hx])]
  · intro i hid
    unfold addItem
    split
    · exact map_bump_eq_set l p.id (cart_ids_nodup h) i.1 i.2 hid
    · rename_i hf
      exfalso
      have hx := List.find?_eq_none.mp hf (l.get i) (List.get_mem l i.1 i.2)
      exact hx (by simpa using hid)

/-- A concrete reachable one-item cart. -/
def cartOne : List CartItem := addItem [] { id := 1, name := "cola", price := 1500 }

/-- Witness for C10: adding the same product twice yields quantity 2. -/
theorem addItem_spec_witness :
    addItem cartOne { id := 1, name := "cola", price := 1500 } =
      [{ id := 1, name := "cola", price := 1500, quantity := 2 }] := by
  have h := (addItem_spec
      (CartReachable.addItem { id := 1, name := "cola", price := 1500 }
        CartReachable.init)
      { id := 1, name := "cola", price := 1500 }).2
    ⟨0, by decide⟩ (by decide)
  unfold cartOne
  rw [h]
  decide

/- ## Status channel reconnect policy (src/app/payment.tsx) -/

def WS_RECONNECT_DELAY : Nat := 3000
def MAX_RECONNECT_ATTEMPTS : Nat := 3

/-- The onclose handler on an abnormal close (payment.tsx lines
341-366): below the attempt ceiling it schedules exactly one reconnect
after min(WS_RECONNECT_DELAY * (attempts+1), 10000) ms, whose callback
increments the counter; at the ceiling it settles the channel state in
FAILED. Returns the scheduled delay, none when nothing is scheduled. -/
def onAbnormalClose (attempts : Nat) : Option Nat :=
  if attempts < MAX_RECONNECT_ATTEMPTS then
    some (min (WS_RECONNECT_DELAY * (attempts + 1)) 10000)
  else
    none

/-- n consecutive abnormal closes: every scheduled reconnect fires,
bumps the attempt counter, reconnects, and the fresh connection again
closes abnormally (onopen never fires, so the counter is never reset).
Returns the scheduled delays and whether the channel settled in
FAILED. -/
def simulateCloses : Nat → Nat → List Nat × Bool
  | 0, _ => ([], false)
  | n + 1, attempts =>
      match onAbnormalClose attempts with
      | some delay =>
          let r := simulateCloses n (attempts + 1)
          (delay :: r.1, r.2)
      | none => ([], true)

lemma simulateCloses_length_le (n a : Nat) :
    (simulateCloses n a).1.length ≤ MAX_RECONNECT_ATTEMPTS - a := by
  induction n generalizing a with
  | zero => simp [simulateCloses]
  | succ k ih =>
      by_cases ha : a < MAX_RECONNECT_ATTEMPTS
      · have hstep : simulateCloses (k + 1) a =
            (min (WS_RECONNECT_DELAY * (a + 1)) 10000 ::
                (simulateCloses k (a + 1)).1,
              (simulateCloses k (a + 1)).2) := by
          simp [simulateCloses, onAbnormalClose, ha]
        rw [hstep]
        have := ih (a + 1)
        simp only [List.length_cons]
        omega
      · have hstep : simulateCloses (k + 1) a = ([], true) := by
          simp [simulateCloses, onAbnormalClose, ha]
        rw [hstep]
        simp

/-- Claim C5: consecutive abnormal closes trigger at most 3 automatic
reconnects; 4 consecutive abnormal closes schedule exactly the delays
3000, 6000, 9000 ms, non-decreasing and capped at 10000 ms, then settle
the channel in FAILED: the 4th close schedules nothing. -/
theorem reconnect_policy :
    (∀ n : Nat, (simulateCloses n 0).1.length ≤ 3) ∧
    (simulateCloses 4 0).1 = [3000, 6000, 9000] ∧
    (simulateCloses 4 0).2 = true ∧
    List.Chain' (fun x y => x ≤ y) (simulateCloses 4 0).1 ∧
    (simulateCloses 4 0).1.all (fun d => decide (d ≤ 10000)) = true ∧
    onAbnormalClose 3 = none := by
  refine ⟨?_, by decide, by decide, ?_, by decide, by decide⟩
  · intro n
    simpa using simulateCloses_length_le n 0
  · have h4 : (simulateCloses 4 0).1 = [3000, 6000, 9000] := by decide
    rw [h4]
    norm_num [List.chain'_cons, List.chain'_singleton]

/- ## Student id validation (src/app/payment.tsx lines 450-479) -/

/-- Numeric value of the maximal leading run of decimal digits, seeded
with the value of the digits already read. -/
def digitRunVal : List Char → Nat → Nat
  | [], acc => acc
  | c :: cs, acc =>
      if c.isDigit then digitRunVal cs (acc * 10 + (c.toNat - 48)) else acc

/-- Value of the maximal leading digit run; none when it is empty. -/
def digitsVal : List Char → Option Nat
  | [] => none
  | c :: cs =>
      if c.isDigit then some (digitRunVal cs (c.toNat - 48)) else none

/-- JS parseInt(s, 10): skip leading whitespace, read an optional sign,
then the maximal run of decimal digits, ignoring everything after it;
NaN (none) when the digit run is empty. -/
def jsParseInt (s : List Char) : Option Int :=
  let t := s.dropWhile
    (fun c => c == ' ' || c == '\t' || c == '\n' || c == '\r')
  match t with
  | '+' :: rest => (digitsVal rest).map (fun n => (n : Int))
  | '-' :: rest => (digitsVal rest).map (fun n => -(n : Int))
  | _ => (digitsVal t).map (fun n => (n : Int))

/-- validateStudentId (payment.tsx lines 450-465): length must be 4;
grade is parseInt of the first character, room of the second, number of
the substring from index 2; all three compared against their ranges,
with any NaN making the conjunction false. -/
def validateStudentId (id : String) : Bool :=
  let cs := id.data
  if cs.length ≠ 4 then false
  else
    match jsParseInt (cs.take 1), jsParseInt ((cs.drop 1).take 1),
        jsParseInt (cs.drop 2) with
    | some grade, some room, some number =>
        decide (1 ≤ grade ∧ grade ≤ 9 ∧ 1 ≤ room ∧ room ≤ 9 ∧
                1 ≤ number ∧ number ≤ 99)
    | _, _, _ => false

/-- The observable effect of handleStudentIdSubmit. -/
inductive SubmitAction where
  | notifyInvalidFormat
  | requestStudentIdPayment (studentId : String)
deriving DecidableEq, Repr

/-- handleStudentIdSubmit (payment.tsx lines 467-479): an input rejected
by validateStudentId only shows a toast; an accepted one starts the
payment-request mutation over the network. -/
def handleStudentIdSubmit (studentId : String) : SubmitAction :=
  if validateStudentId studentId then
    SubmitAction.requestStudentIdPayment studentId
  else
    SubmitAction.notifyInvalidFormat

/-- Claim C6, evaluated: the stated examples behave as claimed, and
rejected inputs never reach the network, but the acceptance condition is
not (exactly 4 digits with the stated ranges): the 4-character input
123x is not all digits yet is accepted and does trigger the network
payment request, because parseInt ignores everything after the digit
run. -/
theorem validateStudentId_eval :
    validateStudentId "1203" = true ∧
    validateStudentId "1299" = true ∧
    validateStudentId "0203" = false ∧
    validateStudentId "1300" = false ∧
    validateStudentId "12345" = false ∧
    handleStudentIdSubmit "12345" = SubmitAction.notifyInvalidFormat ∧
    "123x".data.length = 4 ∧
    "123x".data.all Char.isDigit = false ∧
    validateStudentId "123x" = true ∧
    handleStudentIdSubmit "123x" =
      SubmitAction.requestStudentIdPayment "123x" := by
  decide

end Flick
